import Mathlib

/-!
Verification of the BusinessIntel scoring-and-orchestration core.

The Python sources are shallowly embedded here:
* `instagram_analyzer.py` : `InstagramAnalyzer.analyze_profile` /
  `analyze_username` (metrics, issues, recommendations, growth tier,
  opportunity score);
* `database.py` / `app/models/database_manager.py` :
  `DatabaseManager.get_top_opportunities` and `mark_contacted` over an
  append-only list of analysis rows;
* `scheduler.py` : `CrawlerScheduler.run_crawl_job`'s job-state update and
  `_calculate_next_run`;
* `api_server.py` : `analyze_profile_async` (the 24-hour result cache) and
  `batch_analyze_profiles`.

Numbers are modelled over `ℚ` (Python floats are used only for small exact
decimal arithmetic here), timestamps over `ℤ` in seconds for the scheduler
and the cache, and post dates over `ℤ` in whole days (the analyzer only
ever uses `.days` of date differences).
-/

namespace BusinessIntel

/-- Round-half-to-even of a rational to an integer, as Python's built-in
`round` behaves on exactly representable values. -/
def roundHalfEven (q : ℚ) : ℤ :=
  if q - ⌊q⌋ < 1/2 then ⌊q⌋
  else if q - ⌊q⌋ > 1/2 then ⌊q⌋ + 1
  else if ⌊q⌋ % 2 = 0 then ⌊q⌋ else ⌊q⌋ + 1

/-- Python's two-argument `min`. -/
def pyMin (a b : ℚ) : ℚ := if a ≤ b then a else b

/-- Python's two-argument `max`. -/
def pyMax (a b : ℚ) : ℚ := if b ≤ a then a else b

/-- Python's `round(q, n)` for `n` decimal digits. -/
def pyRound (q : ℚ) (n : ℕ) : ℚ :=
  (roundHalfEven (q * 10 ^ n) : ℚ) / 10 ^ n

/-- One entry of `profile_data['recent_posts']` as built by
`fetch_profile_data` (likes, comments, date, is_video); the date is a whole
day index, newest first in the list. -/
structure Post where
  likes : ℕ
  comments : ℕ
  date : ℤ
  is_video : Bool
deriving DecidableEq

/-- The `profile_data` dictionary produced by `fetch_profile_data`. -/
structure ProfileData where
  username : String
  full_name : String
  followers : ℕ
  following : ℕ
  total_posts : ℕ
  is_verified : Bool
  is_business : Bool
  recent_posts : List Post
deriving DecidableEq

/-- The analysis dictionary returned by `analyze_profile` on the normal
path (all keys except the caller-facing `analyzed_at` ISO string, which is
modelled as the integer instant `now`). -/
structure Analysis where
  username : String
  full_name : String
  followers : ℕ
  following : ℕ
  posts : ℕ
  is_business : Bool
  engagement_rate : ℚ
  average_likes : ℚ
  average_comments : ℚ
  posting_frequency : String
  avg_posting_interval_days : ℚ
  last_post_days : ℤ
  growth_potential : String
  issues : List String
  recommendations : List String
  opportunity_score : ℚ
  analyzed_at : ℤ
deriving DecidableEq

/-- Result dictionaries flowing out of `analyze_profile` /
`analyze_username`: a full analysis, the degraded
`{'error': 'Insufficient data for analysis', 'opportunity_score': 0}`
dictionary, or the `{'error': 'Could not fetch profile @u'}` dictionary. -/
inductive AnalyzeResult where
  | ok (a : Analysis)
  | insufficientData
  | fetchFailed (msg : String)
deriving DecidableEq

/-- The `opportunity_score` key of the result dictionary, when present:
`analyze_profile`'s degraded result carries a literal 0, while the
could-not-fetch dictionary has no such key. -/
def AnalyzeResult.scoreField : AnalyzeResult → Option ℚ
  | .ok a => some a.opportunity_score
  | .insufficientData => some 0
  | .fetchFailed _ => none

/-- The opportunity score of a result, defaulting to 0 when absent. -/
def AnalyzeResult.score (r : AnalyzeResult) : ℚ :=
  r.scoreField.getD 0

/-- Whether the result dictionary contains the `'error'` key. -/
def AnalyzeResult.hasError : AnalyzeResult → Bool
  | .ok _ => false
  | .insufficientData => true
  | .fetchFailed _ => true

/-- `avg_likes = total_likes / len(posts) if posts else 0`. -/
def avgLikes (posts : List Post) : ℚ :=
  if posts.isEmpty then 0
  else ((posts.map Post.likes).sum : ℚ) / posts.length

/-- `avg_comments = total_comments / len(posts) if posts else 0`. -/
def avgComments (posts : List Post) : ℚ :=
  if posts.isEmpty then 0
  else ((posts.map Post.comments).sum : ℚ) / posts.length

/-- `engagement_rate = (avg_engagement / followers * 100) if followers > 0
else 0`. -/
def engagement_rate_of (followers : ℕ) (avg_engagement : ℚ) : ℚ :=
  if followers > 0 then avg_engagement / followers * 100 else 0

/-- `date_diffs = [(post_dates[i] - post_dates[i+1]).days for i in
range(len(post_dates)-1)]`. -/
def dateDiffs : List ℤ → List ℤ
  | a :: b :: rest => (a - b) :: dateDiffs (b :: rest)
  | _ => []

/-- The posting-interval block: mean of the adjacent day gaps when at least
two posts exist (`statistics.mean(date_diffs) if date_diffs else 0`),
otherwise the default of 30. -/
def avg_posting_interval_of (posts : List Post) : ℚ :=
  if posts.length ≥ 2 then
    let ds := dateDiffs (posts.map Post.date)
    if ds.isEmpty then 0 else (ds.sum : ℚ) / ds.length
  else 30

/-- `last_post_days = (now - posts[0]['date']).days if posts else 999`. -/
def last_post_days_of (now : ℤ) (posts : List Post) : ℤ :=
  match posts with
  | p :: _ => now - p.date
  | [] => 999

/-- The posting-frequency bucket of the average interval. -/
def posting_frequency_of (interval : ℚ) : String :=
  if interval ≤ 3/2 then "daily"
  else if interval ≤ 4 then "2-3 times/week"
  else if interval ≤ 9 then "weekly"
  else "irregular"

/-- The six issue rules, in source order, before the `issues[:5]` cap. -/
def issues_of (engagement_rate interval : ℚ) (lastDays : ℤ)
    (followers following posts_total : ℕ) (avg_likes avg_comments : ℚ) :
    List String :=
  (if engagement_rate < 2 then
    ["Low engagement rate - audience not interacting with content"] else []) ++
  (if interval > 5 then
    ["Inconsistent posting schedule - losing audience interest"] else []) ++
  (if lastDays > 7 then
    ["Inactive account - last post was " ++ toString lastDays ++ " days ago"]
   else []) ++
  (if (following : ℚ) > followers * (3/2) then
    ["Following too many accounts compared to followers"] else []) ++
  (if avg_comments < avg_likes * (1/50) then
    ["Very low comment-to-like ratio - weak community engagement"] else []) ++
  (if posts_total < 50 then
    ["Limited content library - not enough posts to attract followers"]
   else [])

/-- The four conditional recommendation rules followed by the three
unconditional ones, before the `recommendations[:6]` cap. -/
def recommendations_of (engagement_rate interval : ℚ) (lastDays : ℤ)
    (avg_likes avg_comments : ℚ) : List String :=
  (if engagement_rate < 3 then
    ["Implement strategic hashtag research and use 20-30 relevant hashtags per post"]
   else []) ++
  (if interval > 3 then
    ["Establish consistent posting schedule - aim for 4-5 posts per week minimum"]
   else []) ++
  (if avg_comments < avg_likes * (1/20) then
    ["Create content that encourages conversation - ask questions, run polls, engage with comments"]
   else []) ++
  (if lastDays > 3 then
    ["Resume regular posting immediately to re-engage dormant audience"]
   else []) ++
  ["Analyze top-performing posts and replicate successful content themes",
   "Optimize posting times based on when followers are most active",
   "Invest in high-quality visual content - use professional photography/videography"]

/-- The growth-potential tier. -/
def growth_potential_of (engagement_rate interval : ℚ) : String :=
  if engagement_rate < 3/2 ∧ interval > 7 then "low"
  else if engagement_rate < 3 ∨ interval > 4 then "medium"
  else "high"

/-- The opportunity score: base 5 plus the five bonuses, rounded to one
decimal, then clamped by `min(10, max(1, round(score, 1)))`. -/
def opportunity_score_of (engagement_rate interval : ℚ) (lastDays : ℤ)
    (followers : ℕ) (biz : Bool) : ℚ :=
  pyMin 10 (pyMax 1 (pyRound
    (5 + (if engagement_rate < 2 then 3/2 else 0)
       + (if interval > 5 then 3/2 else 0)
       + (if lastDays > 7 then 1 else 0)
       + (if followers > 1000 ∧ engagement_rate < 5/2 then 1 else 0)
       + (if biz then 1/2 else 0)) 1))

/-- `InstagramAnalyzer.analyze_profile`, with the analyzer's two
`datetime.now()` reads modelled as the single instant `now`. -/
def analyze_profile (now : ℤ) (pd : ProfileData) : AnalyzeResult :=
  if pd.recent_posts.isEmpty then .insufficientData
  else
    let posts := pd.recent_posts
    let aL := avgLikes posts
    let aC := avgComments posts
    let er := engagement_rate_of pd.followers (aL + aC)
    let interval := avg_posting_interval_of posts
    let lastDays := last_post_days_of now posts
    .ok {
      username := pd.username
      full_name := pd.full_name
      followers := pd.followers
      following := pd.following
      posts := pd.total_posts
      is_business := pd.is_business
      engagement_rate := pyRound er 2
      average_likes := pyRound aL 1
      average_comments := pyRound aC 1
      posting_frequency := posting_frequency_of interval
      avg_posting_interval_days := pyRound interval 1
      last_post_days := lastDays
      growth_potential := growth_potential_of er interval
      issues := (issues_of er interval lastDays pd.followers pd.following
                  pd.total_posts aL aC).take 5
      recommendations := (recommendations_of er interval lastDays aL aC).take 6
      opportunity_score := opportunity_score_of er interval lastDays
                             pd.followers pd.is_business
      analyzed_at := now }

/-- `InstagramAnalyzer.analyze_username`: the external fetch is an oracle
returning the profile dictionary or `None` (profile-not-found, connection
error, or any other fetch exception all yield `None` in the source). -/
def analyze_username (fetch : String → Option ProfileData) (now : ℤ)
    (u : String) : AnalyzeResult :=
  match fetch u with
  | none => .fetchFailed ("Could not fetch profile @" ++ u)
  | some pd => analyze_profile now pd

/-- One row of the append-only `analysis_history` table, restricted to the
columns the verified queries touch; `id` is the primary key,
`analyzed_at` an integer timestamp. -/
structure AnalysisRecord where
  id : ℕ
  username : String
  followers : ℕ
  engagement_rate : ℚ
  opportunity_score : ℚ
  growth_potential : String
  contacted : Bool
  contacted_date : Option ℤ
  notes : Option String
  analyzed_at : ℤ
deriving DecidableEq

/-- The `ORDER BY opportunity_score DESC` relation on rows. -/
def scoreDesc (a b : AnalysisRecord) : Prop :=
  b.opportunity_score ≤ a.opportunity_score

instance : DecidableRel scoreDesc := fun a b =>
  inferInstanceAs (Decidable (b.opportunity_score ≤ a.opportunity_score))

instance : IsTotal AnalysisRecord scoreDesc :=
  ⟨fun a b => le_total b.opportunity_score a.opportunity_score⟩

instance : IsTrans AnalysisRecord scoreDesc :=
  ⟨fun _ _ _ hab hbc => le_trans hbc hab⟩

/-- A row satisfies the join against the grouped subquery
`(username, max(analyzed_at)) GROUP BY username` exactly when no row of the
same username is strictly newer. -/
def isLatestFor (records : List AnalysisRecord) (r : AnalysisRecord) : Bool :=
  records.all fun s =>
    !(s.username == r.username) || decide (s.analyzed_at ≤ r.analyzed_at)

/-- `DatabaseManager.get_top_opportunities`: join the table with its
per-username max-timestamp subquery, filter to `opportunity_score >=
min_score`, order by score descending, and apply `LIMIT`. -/
def get_top_opportunities (records : List AnalysisRecord) (min_score : ℚ)
    (limit : ℕ) : List AnalysisRecord :=
  (List.insertionSort scoreDesc
    ((records.filter fun r => isLatestFor records r).filter
      fun r => decide (min_score ≤ r.opportunity_score))).take limit

/-- `query.filter_by(username=u).order_by(analyzed_at.desc()).first()`:
the row of that username with maximal `analyzed_at` (keeping the earliest
stored row among equal timestamps). -/
def latestFor : List AnalysisRecord → String → Option AnalysisRecord
  | [], _ => none
  | r :: rest, u =>
    if r.username == u then
      match latestFor rest u with
      | none => some r
      | some b => if b.analyzed_at > r.analyzed_at then some b else some r
    else latestFor rest u

/-- The in-place mutation `mark_contacted` performs on the selected row:
`contacted = True`, `contacted_date = utcnow()`, and `notes` only when the
passed notes are truthy (neither `None` nor the empty string). -/
def applyContact (now : ℤ) (notes : Option String) (r : AnalysisRecord) :
    AnalysisRecord :=
  { r with
    contacted := true
    contacted_date := some now
    notes := match notes with
             | some s => if s = "" then r.notes else some s
             | none => r.notes }

/-- `DatabaseManager.mark_contacted`: select the newest row of the
username; if none exists return `False` with the table untouched,
otherwise mutate that row in place (rows are identified by primary key)
and return `True`. -/
def mark_contacted (records : List AnalysisRecord) (u : String)
    (notes : Option String) (now : ℤ) : Bool × List AnalysisRecord :=
  match latestFor records u with
  | none => (false, records)
  | some r =>
    (true, records.map fun s =>
      if s.id = r.id then applyContact now notes s else s)

/-- The columns of a `crawl_jobs` row that `run_crawl_job` reads or
writes; timestamps are integer seconds. -/
structure CrawlJob where
  id : ℕ
  name : String
  frequency : String
  min_opportunity_score : ℚ
  is_active : Bool
  last_run : Option ℤ
  next_run : Option ℤ
  profiles_found : ℕ
deriving DecidableEq

/-- Seconds in one day, for `timedelta` arithmetic. -/
def daySeconds : ℤ := 86400

/-- `CrawlerScheduler._calculate_next_run`: `timedelta(days=1)` for
daily, `timedelta(weeks=1)` for weekly, `timedelta(days=30)` for monthly,
and the weekly default for anything else. -/
def calculate_next_run (now : ℤ) (frequency : String) : ℤ :=
  if frequency = "daily" then now + 1 * daySeconds
  else if frequency = "weekly" then now + 7 * daySeconds
  else if frequency = "monthly" then now + 30 * daySeconds
  else now + 7 * daySeconds

/-- The `UPDATE crawl_jobs SET last_run=now, next_run=..., profiles_found=
analyzed_count` statement issued at the end of `run_crawl_job`; the two
`datetime.now()` reads inside the single update are modelled as the same
instant `now`. -/
def run_crawl_job_update (now : ℤ) (job : CrawlJob) (analyzed_count : ℕ) :
    CrawlJob :=
  { job with
    last_run := some now
    next_run := some (calculate_next_run now job.frequency)
    profiles_found := analyzed_count }

/-- The freshness check of `analyze_profile_async`: the cached dictionary
is reusable only while `now - analyzed_at < 86400` seconds. -/
def cacheFresh (now : ℤ) (cache : String → Option Analysis) (u : String) :
    Option Analysis :=
  match cache u with
  | some c => if now - c.analyzed_at < 86400 then some c else none
  | none => none

/-- `analyze_profile_async` over the module-level `analysis_cache`
dictionary (modelled as a map from username to cached analysis).
Returns the result dictionary, the cache after the call, and whether the
fetch-and-analyze pipeline (`analyzer.analyze_username`) was invoked.
Only non-error results are written back to the cache. -/
def analyze_profile_async (fetch : String → Option ProfileData) (now : ℤ)
    (cache : String → Option Analysis) (username : String)
    (force_refresh : Bool) :
    AnalyzeResult × (String → Option Analysis) × Bool :=
  match force_refresh, cacheFresh now cache username with
  | false, some c => (.ok c, cache, false)
  | _, _ =>
    match analyze_username fetch now username with
    | .ok a =>
      (.ok a, fun v => if v = username then some a else cache v, true)
    | r => (r, cache, true)

/-- The empty module-level cache at process start. -/
def emptyCache : String → Option Analysis := fun _ => none

/-- The `results.sort(key=lambda x: x.opportunity_score, reverse=True)`
relation on analysis payloads. -/
def byScoreDesc (a b : Analysis) : Prop :=
  b.opportunity_score ≤ a.opportunity_score

instance : DecidableRel byScoreDesc := fun a b =>
  inferInstanceAs (Decidable (b.opportunity_score ≤ a.opportunity_score))

instance : IsTotal Analysis byScoreDesc :=
  ⟨fun a b => le_total b.opportunity_score a.opportunity_score⟩

instance : IsTrans Analysis byScoreDesc :=
  ⟨fun _ _ _ hab hbc => le_trans hbc hab⟩

/-- The JSON body of a batch-analyze response. -/
structure BatchResponse where
  success : Bool
  total_analyzed : ℕ
  successful : ℕ
  failed : ℕ
  results : List Analysis
  errors : List (String × String)
deriving DecidableEq

/-- The error entry a result dictionary contributes to the `errors` list,
if any (`str(exception)` never arises here: the analyzer converts its
failures into error dictionaries before the gather). -/
def errorEntry (u : String) : AnalyzeResult → Option (String × String)
  | .ok _ => none
  | .insufficientData => some (u, "Insufficient data for analysis")
  | .fetchFailed m => some (u, m)

/-- The entry a result dictionary contributes to the `results` list: a
successful analysis passing the minimum-score filter. -/
def resultEntry (min_score : ℚ) : AnalyzeResult → Option Analysis
  | .ok a => if min_score ≤ a.opportunity_score then some a else none
  | _ => none

/-- `batch_analyze_profiles`: every username is analyzed (the tasks'
synchronous cache checks all see the pre-batch cache, since each coroutine
reaches its first await only after the check), per-username results and
errors are collected in request order, the successes passing the filter are
sorted by score descending, and the aggregate counts are the lengths of
the two lists. -/
def batch_analyze_profiles (fetch : String → Option ProfileData) (now : ℤ)
    (cache : String → Option Analysis) (usernames : List String)
    (min_score : ℚ) : BatchResponse :=
  let analyses := usernames.map fun u =>
    (analyze_profile_async fetch now cache u false).1
  let pairs := usernames.zip analyses
  let errors := pairs.filterMap fun p => errorEntry p.1 p.2
  let results := List.insertionSort byScoreDesc
    (pairs.filterMap fun p => resultEntry min_score p.2)
  { success := true
    total_analyzed := usernames.length
    successful := results.length
    failed := errors.length
    results := results
    errors := errors }

/-! Concrete inputs used by the scenario theorems and witnesses. -/

/-- The spec's §8 scenario posts: five posts, newest first, gaps of 12
days, 25 likes and 1 comment in total, the newest post 10 days before the
reference instant 100. -/
def c1posts : List Post :=
  [⟨5, 1, 90, false⟩, ⟨5, 0, 78, false⟩, ⟨5, 0, 66, false⟩,
   ⟨5, 0, 54, false⟩, ⟨5, 0, 42, false⟩]

/-- The spec's §8 scenario profile: followers 1000, following 2000,
5 total posts, not a business account. -/
def c1profile : ProfileData :=
  { username := "sample_shop"
    full_name := "Sample Shop"
    followers := 1000
    following := 2000
    total_posts := 5
    is_verified := false
    is_business := false
    recent_posts := c1posts }

/-- The analysis the code produces for the §8 scenario at instant 100. -/
def c1analysis : Analysis :=
  { username := "sample_shop"
    full_name := "Sample Shop"
    followers := 1000
    following := 2000
    posts := 5
    is_business := false
    engagement_rate := 13/25
    average_likes := 5
    average_comments := 1/5
    posting_frequency := "irregular"
    avg_posting_interval_days := 12
    last_post_days := 10
    growth_potential := "low"
    issues :=
      ["Low engagement rate - audience not interacting with content",
       "Inconsistent posting schedule - losing audience interest",
       "Inactive account - last post was 10 days ago",
       "Following too many accounts compared to followers",
       "Limited content library - not enough posts to attract followers"]
    recommendations :=
      ["Implement strategic hashtag research and use 20-30 relevant hashtags per post",
       "Establish consistent posting schedule - aim for 4-5 posts per week minimum",
       "Create content that encourages conversation - ask questions, run polls, engage with comments",
       "Resume regular posting immediately to re-engage dormant audience",
       "Analyze top-performing posts and replicate successful content themes",
       "Optimize posting times based on when followers are most active"]
    opportunity_score := 9
    analyzed_at := 100 }

/-- A profile whose post sequence is empty. -/
def noPostsProfile : ProfileData :=
  { username := "ghost"
    full_name := "Ghost"
    followers := 10
    following := 20
    total_posts := 0
    is_verified := false
    is_business := false
    recent_posts := [] }

/-- Two stored rows of the same username carrying the same timestamp:
an `analyzed_at` tie inside one username group. -/
def dupRecords : List AnalysisRecord :=
  [⟨1, "a", 10, 1, 6, "medium", false, none, none, 0⟩,
   ⟨2, "a", 10, 1, 7, "medium", false, none, none, 0⟩]

/-- A small store with distinct primary keys and, per username, distinct
timestamps. -/
def wRecords : List AnalysisRecord :=
  [⟨1, "a", 100, 1, 8, "low", false, none, none, 0⟩,
   ⟨2, "b", 50, 1, 6, "medium", false, none, none, 1⟩,
   ⟨3, "a", 120, 1, 4, "high", false, none, none, 5⟩]

/-- A stored analysis row for the lead-management witnesses. -/
def recA : AnalysisRecord :=
  ⟨1, "alice", 100, 1, 8, "low", false, none, none, 10⟩

/-- A second stored row under another username. -/
def recB : AnalysisRecord :=
  ⟨2, "bob", 50, 2, 6, "medium", false, none, none, 20⟩

/-- An active weekly crawl job. -/
def wJob : CrawlJob :=
  ⟨1, "weekly leads", "weekly", 5, true, none, none, 0⟩

/-- A fetch oracle: the identifier `"y"` fails (profile not found or
connection error), every other identifier resolves to the scenario
profile. -/
def wfetch : String → Option ProfileData :=
  fun u => if u = "y" then none else some c1profile

/-! Helper lemmas shared by the claim theorems. -/

theorem roundHalfEven_nonneg {q : ℚ} (h : 0 ≤ q) : 0 ≤ roundHalfEven q := by
  unfold roundHalfEven
  have hf : (0 : ℤ) ≤ ⌊q⌋ := Int.floor_nonneg.mpr h
  split_ifs <;> omega

theorem pyRound_nonneg {q : ℚ} (n : ℕ) (h : 0 ≤ q) : 0 ≤ pyRound q n := by
  unfold pyRound
  have : (0 : ℤ) ≤ roundHalfEven (q * 10 ^ n) :=
    roundHalfEven_nonneg (by positivity)
  positivity

theorem avgLikes_nonneg (posts : List Post) : 0 ≤ avgLikes posts := by
  unfold avgLikes
  split_ifs
  · exact le_refl 0
  · positivity

theorem avgComments_nonneg (posts : List Post) : 0 ≤ avgComments posts := by
  unfold avgComments
  split_ifs
  · exact le_refl 0
  · positivity

theorem engagement_rate_of_nonneg (followers : ℕ) {avg : ℚ} (h : 0 ≤ avg) :
    0 ≤ engagement_rate_of followers avg := by
  unfold engagement_rate_of
  split_ifs
  · exact mul_nonneg (div_nonneg h (by positivity)) (by norm_num)
  · exact le_refl 0

unseal Rat.add Rat.mul Rat.inv Rat.sub in
theorem opportunity_score_of_bounds (er interval : ℚ) (lastDays : ℤ)
    (followers : ℕ) (biz : Bool) :
    5 ≤ opportunity_score_of er interval lastDays followers biz ∧
    opportunity_score_of er interval lastDays followers biz ≤ 10 := by
  unfold opportunity_score_of
  constructor
  · split_ifs <;> decide
  · split_ifs <;> decide

theorem analyze_profile_ok_inv {now : ℤ} {pd : ProfileData} {a : Analysis}
    (h : analyze_profile now pd = .ok a) :
    a.analyzed_at = now ∧ 5 ≤ a.opportunity_score ∧
    a.opportunity_score ≤ 10 := by
  by_cases hemp : pd.recent_posts.isEmpty
  · simp [analyze_profile, hemp] at h
  · rw [Bool.not_eq_true] at hemp
    simp only [analyze_profile, hemp, Bool.false_eq_true, if_false,
      AnalyzeResult.ok.injEq] at h
    subst h
    refine ⟨rfl, ?_, ?_⟩
    · exact (opportunity_score_of_bounds _ _ _ _ _).1
    · exact (opportunity_score_of_bounds _ _ _ _ _).2

theorem analyze_username_ok_inv {fetch : String → Option ProfileData}
    {now : ℤ} {u : String} {a : Analysis}
    (h : analyze_username fetch now u = .ok a) :
    a.analyzed_at = now ∧ 5 ≤ a.opportunity_score ∧
    a.opportunity_score ≤ 10 := by
  unfold analyze_username at h
  cases hf : fetch u with
  | none => rw [hf] at h; exact absurd h (by simp)
  | some pd => rw [hf] at h; exact analyze_profile_ok_inv h

/-! Claim theorems. -/

unseal Rat.add Rat.mul Rat.inv Rat.sub in
/-- C1, counterexample: on the §8 scenario input the claimed opportunity
score of 10.0 is wrong — the code computes 9.0, because the extra bonus
requires `followers > 1000` strictly and the scenario has exactly 1000
followers. -/
theorem c1_score_not_ten :
    (analyze_profile 100 c1profile).score ≠ 10 := by decide

unseal Rat.add Rat.mul Rat.inv Rat.sub in
/-- C1, amended: for followers=1000, following=2000, total_posts=5,
avg_likes=5, avg_comments=0.2, avg_posting_interval=12, last_post_days=10,
is_business=false, `analyze_profile` yields engagement_rate=0.52, the five
issues (low engagement, inconsistent posting, inactive account,
over-following, limited content library), growth tier "low", and
opportunity score 9.0 = 5 + 1.5 + 1.5 + 1.0 — the followers>1000 bonus
does not fire because 1000 is not strictly greater than 1000, and the
clamp leaves 9.0 unchanged. -/
theorem c1_scenario :
    analyze_profile 100 c1profile = .ok c1analysis ∧
    c1analysis.engagement_rate = 13/25 ∧
    c1analysis.issues =
      ["Low engagement rate - audience not interacting with content",
       "Inconsistent posting schedule - losing audience interest",
       "Inactive account - last post was 10 days ago",
       "Following too many accounts compared to followers",
       "Limited content library - not enough posts to attract followers"] ∧
    c1analysis.growth_potential = "low" ∧
    c1analysis.opportunity_score = 9 := by
  refine ⟨by decide, by decide, by decide, by decide, by decide⟩

/-- C7: for every profile whose post sequence is empty, `analyze_profile`
short-circuits to the degraded insufficient-data dictionary whose
`opportunity_score` key is literally 0; no metrics branch is reached and
nothing is raised. -/
theorem c7_empty_posts_degraded (now : ℤ) (pd : ProfileData)
    (h : pd.recent_posts = []) :
    analyze_profile now pd = .insufficientData ∧
    (analyze_profile now pd).scoreField = some 0 := by
  have he : pd.recent_posts.isEmpty = true := by simp [h]
  exact ⟨by simp [analyze_profile, he],
         by simp [analyze_profile, he, AnalyzeResult.scoreField]⟩

/-- Witness for C7 at the concrete post-free profile. -/
theorem c7_witness :
    analyze_profile 55 noPostsProfile = .insufficientData ∧
    (analyze_profile 55 noPostsProfile).scoreField = some 0 :=
  c7_empty_posts_degraded 55 noPostsProfile (by decide)

theorem analyze_profile_score_eq (now : ℤ) (pd : ProfileData)
    (h : pd.recent_posts ≠ []) :
    (analyze_profile now pd).score =
      opportunity_score_of
        (engagement_rate_of pd.followers
          (avgLikes pd.recent_posts + avgComments pd.recent_posts))
        (avg_posting_interval_of pd.recent_posts)
        (last_post_days_of now pd.recent_posts)
        pd.followers pd.is_business := by
  have he : pd.recent_posts.isEmpty = false := by simp [h]
  simp [analyze_profile, he, AnalyzeResult.score, AnalyzeResult.scoreField]

/-- C4: for every profile input reaching the scoring path, the opportunity
score returned by `analyze_profile` lies in `[1, 10]` — it is the base-5
bonus sum, rounded to one decimal, then clamped — and the computation is a
pure function, so identical inputs always produce the identical result. -/
theorem c4_score_bounded_and_stable (now : ℤ) (pd : ProfileData)
    (h : pd.recent_posts ≠ []) :
    1 ≤ (analyze_profile now pd).score ∧
    (analyze_profile now pd).score ≤ 10 ∧
    analyze_profile now pd = analyze_profile now pd := by
  have hs := analyze_profile_score_eq now pd h
  refine ⟨?_, ?_, rfl⟩
  · rw [hs]; linarith [(opportunity_score_of_bounds
      (engagement_rate_of pd.followers
        (avgLikes pd.recent_posts + avgComments pd.recent_posts))
      (avg_posting_interval_of pd.recent_posts)
      (last_post_days_of now pd.recent_posts)
      pd.followers pd.is_business).1]
  · rw [hs]; exact (opportunity_score_of_bounds _ _ _ _ _).2

/-- Witness for C4 at the §8 scenario input. -/
theorem c4_witness :
    1 ≤ (analyze_profile 100 c1profile).score ∧
    (analyze_profile 100 c1profile).score ≤ 10 ∧
    analyze_profile 100 c1profile = analyze_profile 100 c1profile :=
  c4_score_bounded_and_stable 100 c1profile (by decide)

/-- C10: for every profile input reaching the scoring path, the returned
opportunity score is at least the base 5.0 — the bonuses are all
non-negative — so the lower clamp bound of 1 never binds and the score
lies in `[5, 10]`. -/
theorem c10_score_at_least_base (now : ℤ) (pd : ProfileData)
    (h : pd.recent_posts ≠ []) :
    5 ≤ (analyze_profile now pd).score ∧
    (analyze_profile now pd).score ≤ 10 := by
  have hs := analyze_profile_score_eq now pd h
  rw [hs]
  exact opportunity_score_of_bounds _ _ _ _ _

/-- Witness for C10 at the §8 scenario input, one day later. -/
theorem c10_witness :
    5 ≤ (analyze_profile 101 c1profile).score ∧
    (analyze_profile 101 c1profile).score ≤ 10 :=
  c10_score_at_least_base 101 c1profile (by decide)

/-- C8: on the scoring path the engagement rate of the produced analysis
is 0 whenever the follower count is 0 — the division by `followers` is
guarded by `followers > 0` — and it is never negative. -/
theorem c8_engagement_rate_safe (now : ℤ) (pd : ProfileData) (a : Analysis)
    (h : analyze_profile now pd = .ok a) :
    (pd.followers = 0 → a.engagement_rate = 0) ∧ 0 ≤ a.engagement_rate := by
  by_cases hemp : pd.recent_posts.isEmpty
  · simp [analyze_profile, hemp] at h
  · rw [Bool.not_eq_true] at hemp
    simp only [analyze_profile, hemp, Bool.false_eq_true, if_false,
      AnalyzeResult.ok.injEq] at h
    subst h
    constructor
    · intro hf
      show pyRound (engagement_rate_of pd.followers
        (avgLikes pd.recent_posts + avgComments pd.recent_posts)) 2 = 0
      rw [hf]
      norm_num [engagement_rate_of, pyRound, roundHalfEven]
    · exact pyRound_nonneg 2 (engagement_rate_of_nonneg _
        (add_nonneg (avgLikes_nonneg _) (avgComments_nonneg _)))

unseal Rat.add Rat.mul Rat.inv Rat.sub in
/-- Witness for C8 at the §8 scenario input. -/
theorem c8_witness :
    (c1profile.followers = 0 → c1analysis.engagement_rate = 0) ∧
    0 ≤ c1analysis.engagement_rate :=
  c8_engagement_rate_safe 100 c1profile c1analysis (by decide)

theorem latestFor_none (records : List AnalysisRecord) (u : String)
    (h : latestFor records u = none) : ∀ s ∈ records, s.username ≠ u := by
  induction records with
  | nil => intro s hs; cases hs
  | cons t rest ih =>
    simp only [latestFor] at h
    split at h
    next ht =>
      split at h
      next => simp at h
      next b hrest => split_ifs at h
    next ht =>
      intro s hs
      rcases List.mem_cons.mp hs with rfl | hsr
      · exact fun he => ht (beq_iff_eq.mpr he)
      · exact ih h s hsr

theorem latestFor_eq_none (records : List AnalysisRecord) (u : String)
    (h : ∀ r ∈ records, r.username ≠ u) : latestFor records u = none := by
  induction records with
  | nil => rfl
  | cons t rest ih =>
    have ht : (t.username == u) = false :=
      beq_eq_false_iff_ne.mpr (h t (List.mem_cons_self t rest))
    simp only [latestFor, ht, Bool.false_eq_true, if_false]
    exact ih fun s hs => h s (List.mem_cons_of_mem t hs)

theorem latestFor_mem (records : List AnalysisRecord) (u : String) :
    ∀ r, latestFor records u = some r → r ∈ records ∧ r.username = u := by
  induction records with
  | nil => intro r h; simp [latestFor] at h
  | cons t rest ih =>
    intro r h
    simp only [latestFor] at h
    split at h
    next ht =>
      split at h
      next hrest =>
        injection h with h; subst h
        exact ⟨List.mem_cons_self _ _, beq_iff_eq.mp ht⟩
      next b hrest =>
        split_ifs at h
        · injection h with h; subst h
          obtain ⟨h1, h2⟩ := ih b hrest
          exact ⟨List.mem_cons_of_mem _ h1, h2⟩
        · injection h with h; subst h
          exact ⟨List.mem_cons_self _ _, beq_iff_eq.mp ht⟩
    next ht =>
      obtain ⟨h1, h2⟩ := ih r h
      exact ⟨List.mem_cons_of_mem _ h1, h2⟩

theorem latestFor_max (records : List AnalysisRecord) (u : String) :
    ∀ r, latestFor records u = some r →
      ∀ s ∈ records, s.username = u → s.analyzed_at ≤ r.analyzed_at := by
  induction records with
  | nil => intro r h; simp [latestFor] at h
  | cons t rest ih =>
    intro r h s hs hsu
    simp only [latestFor] at h
    split at h
    next ht =>
      split at h
      next hrest =>
        injection h with h; subst h
        rcases List.mem_cons.mp hs with rfl | hsr
        · exact le_refl _
        · exact absurd hsu (latestFor_none rest u hrest s hsr)
      next b hrest =>
        split_ifs at h with hgt
        · injection h with h; subst h
          rcases List.mem_cons.mp hs with rfl | hsr
          · exact le_of_lt hgt
          · exact ih b hrest s hsr hsu
        · injection h with h; subst h
          rcases List.mem_cons.mp hs with rfl | hsr
          · exact le_refl _
          · exact le_trans (ih b hrest s hsr hsu) (not_lt.mp hgt)
    next ht =>
      rcases List.mem_cons.mp hs with rfl | hsr
      · exact absurd (beq_iff_eq.mpr hsu) ht
      · exact ih r h s hsr hsu

/-- C9: `mark_contacted` on an identifier with no stored analysis row
returns `False` and leaves the store entirely unchanged; when rows exist
it returns `True` and rewrites exactly the selected most-recent row of
that identifier (every row with a different primary key is kept as is). -/
theorem c9_mark_contacted (records : List AnalysisRecord) (u : String)
    (notes : Option String) (now : ℤ) :
    ((∀ r ∈ records, r.username ≠ u) →
      mark_contacted records u notes now = (false, records)) ∧
    (∀ r, latestFor records u = some r →
      mark_contacted records u notes now =
        (true, records.map fun s =>
          if s.id = r.id then applyContact now notes s else s) ∧
      r ∈ records ∧ r.username = u ∧
      (∀ s ∈ records, s.username = u → s.analyzed_at ≤ r.analyzed_at) ∧
      (∀ s ∈ records, s.id ≠ r.id →
        s ∈ (mark_contacted records u notes now).2)) := by
  constructor
  · intro h
    simp [mark_contacted, latestFor_eq_none records u h]
  · intro r hr
    refine ⟨by simp [mark_contacted, hr],
      (latestFor_mem records u r hr).1, (latestFor_mem records u r hr).2,
      latestFor_max records u r hr, ?_⟩
    intro s hs hid
    simp only [mark_contacted, hr]
    exact List.mem_map.mpr ⟨s, hs, by simp [hid]⟩

/-- Witness for C9: a store without the identifier is untouched; a store
with two identifiers updates only the single matching row. -/
theorem c9_witness :
    mark_contacted [recB] "alice" none 7 = (false, [recB]) ∧
    mark_contacted [recA, recB] "alice" (some "call later") 30 =
      (true, [applyContact 30 (some "call later") recA, recB]) := by
  constructor
  · exact (c9_mark_contacted [recB] "alice" none 7).1 (by decide)
  · have h := (c9_mark_contacted [recA, recB] "alice"
      (some "call later") 30).2 recA (by decide)
    rw [h.1]
    decide

/-- C3: after a completed crawl-job run at instant `now`, the stored
`last_run` is `now` and the stored `next_run` is `last_run` plus exactly
7 days for frequency "weekly" — independent of how many profiles were
analyzed — and in general `next_run` is `now` plus 1 day for "daily",
7 days for "weekly", 30 days for "monthly", and 7 days for any
unrecognized frequency. -/
theorem c3_next_run (now : ℤ) (job : CrawlJob) (n m : ℕ) :
    (run_crawl_job_update now job n).last_run = some now ∧
    (run_crawl_job_update now job n).next_run =
      some (calculate_next_run now job.frequency) ∧
    (job.frequency = "weekly" →
      (run_crawl_job_update now job n).next_run =
        (run_crawl_job_update now job n).last_run.map
          (fun t => t + 7 * daySeconds)) ∧
    (run_crawl_job_update now job n).next_run =
      (run_crawl_job_update now job m).next_run ∧
    (job.frequency = "daily" →
      calculate_next_run now job.frequency = now + 1 * daySeconds) ∧
    (job.frequency = "weekly" →
      calculate_next_run now job.frequency = now + 7 * daySeconds) ∧
    (job.frequency = "monthly" →
      calculate_next_run now job.frequency = now + 30 * daySeconds) ∧
    (job.frequency ≠ "daily" → job.frequency ≠ "weekly" →
      job.frequency ≠ "monthly" →
      calculate_next_run now job.frequency = now + 7 * daySeconds) := by
  refine ⟨rfl, rfl, ?_, rfl, ?_, ?_, ?_, ?_⟩
  · intro h
    simp [run_crawl_job_update, calculate_next_run, h]
  · intro h; simp [calculate_next_run, h]
  · intro h; simp [calculate_next_run, h]
  · intro h; simp [calculate_next_run, h]
  · intro h1 h2 h3
    simp [calculate_next_run, h1, h2, h3]

/-- Witness for C3 at a concrete weekly job. -/
theorem c3_witness :
    (run_crawl_job_update 1000 wJob 4).last_run = some 1000 ∧
    (run_crawl_job_update 1000 wJob 4).next_run =
      some (1000 + 7 * daySeconds) := by
  have h := c3_next_run 1000 wJob 4 9
  refine ⟨h.1, ?_⟩
  have h2 := h.2.2.1 (by decide)
  rw [h2, h.1]
  rfl


theorem isLatestFor_iff (records : List AnalysisRecord) (r : AnalysisRecord) :
    isLatestFor records r = true ↔
    ∀ s ∈ records, s.username = r.username →
      s.analyzed_at ≤ r.analyzed_at := by
  unfold isLatestFor
  rw [List.all_eq_true]
  constructor
  · intro h s hs he
    have hb := h s hs
    simp [he] at hb
    exact hb
  · intro h s hs
    by_cases he : s.username = r.username
    · simp [he, h s hs he]
    · have : (s.username == r.username) = false := beq_eq_false_iff_ne.mpr he
      simp [this]

unseal Rat.add Rat.mul Rat.inv Rat.sub in
/-- C2, counterexample: with two rows of the same username sharing one
`analyzed_at` value, the max-timestamp join keeps both rows, so
`get_top_opportunities` returns the same identifier twice. -/
theorem c2_duplicate_usernames :
    (get_top_opportunities dupRecords 0 10).map AnalysisRecord.username =
      ["a", "a"] ∧
    ¬ (get_top_opportunities dupRecords 0 10).Pairwise
      (fun a b => a.username ≠ b.username) := by
  constructor
  · decide
  · decide

/-- C2, amended: provided the stored rows have pairwise-distinct primary
keys and no two rows of one username share a timestamp, the query returns
pairwise-distinct usernames; every returned row is a stored row with score
at least `min_score` whose timestamp is maximal within its username group;
the output is ordered by score descending and holds at most `limit`
rows. -/
theorem c2_top_opportunities_dedup (records : List AnalysisRecord)
    (min_score : ℚ) (limit : ℕ)
    (hid : (records.map AnalysisRecord.id).Nodup)
    (hts : ∀ r ∈ records, ∀ s ∈ records,
      r.username = s.username → r.analyzed_at = s.analyzed_at → r = s) :
    (get_top_opportunities records min_score limit).Pairwise
      (fun a b => a.username ≠ b.username) ∧
    (∀ r ∈ get_top_opportunities records min_score limit,
      r ∈ records ∧ min_score ≤ r.opportunity_score ∧
      ∀ s ∈ records, s.username = r.username →
        s.analyzed_at ≤ r.analyzed_at) ∧
    (get_top_opportunities records min_score limit).Sorted scoreDesc ∧
    (get_top_opportunities records min_score limit).length ≤ limit := by
  have hnd : records.Nodup := List.Nodup.of_map _ hid
  have hl2 : ((records.filter fun r => isLatestFor records r).filter
      fun r => decide (min_score ≤ r.opportunity_score)).Nodup :=
    (hnd.filter _).filter _
  have hunf : get_top_opportunities records min_score limit =
      (List.insertionSort scoreDesc
        ((records.filter fun r => isLatestFor records r).filter
          fun r => decide (min_score ≤ r.opportunity_score))).take limit := rfl
  have hmem : ∀ r ∈ get_top_opportunities records min_score limit,
      r ∈ records ∧ isLatestFor records r = true ∧
      min_score ≤ r.opportunity_score := by
    intro r hr
    rw [hunf] at hr
    have h1 := List.mem_of_mem_take hr
    have h2 := (List.mem_insertionSort scoreDesc).mp h1
    obtain ⟨h3, h4⟩ := List.mem_filter.mp h2
    obtain ⟨h5, h6⟩ := List.mem_filter.mp h3
    exact ⟨h5, h6, of_decide_eq_true h4⟩
  refine ⟨?_, ?_, ?_, ?_⟩
  · have hndres : (get_top_opportunities records min_score limit).Nodup := by
      rw [hunf]
      exact List.Nodup.sublist (List.take_sublist _ _)
        ((List.perm_insertionSort scoreDesc _).symm.nodup hl2)
    refine List.Pairwise.imp_of_mem ?_ hndres
    intro a b ha hb hne hus
    obtain ⟨ha1, ha2, _⟩ := hmem a ha
    obtain ⟨hb1, hb2, _⟩ := hmem b hb
    have hab : a.analyzed_at ≤ b.analyzed_at :=
      (isLatestFor_iff records b).mp hb2 a ha1 hus
    have hba : b.analyzed_at ≤ a.analyzed_at :=
      (isLatestFor_iff records a).mp ha2 b hb1 hus.symm
    exact hne (hts a ha1 b hb1 hus (le_antisymm hab hba))
  · intro r hr
    obtain ⟨h1, h2, h3⟩ := hmem r hr
    exact ⟨h1, h3, (isLatestFor_iff records r).mp h2⟩
  · rw [hunf]
    exact List.Pairwise.sublist (List.take_sublist _ _)
      (List.sorted_insertionSort scoreDesc _)
  · rw [hunf, List.length_take]
    exact min_le_left _ _

unseal Rat.add Rat.mul Rat.inv Rat.sub in
/-- Witness for C2 on a concrete three-row store. -/
theorem c2_witness :
    (get_top_opportunities wRecords 5 20).Pairwise
      (fun a b => a.username ≠ b.username) ∧
    (get_top_opportunities wRecords 5 20).length ≤ 20 := by
  have h := c2_top_opportunities_dedup wRecords 5 20 (by decide) (by decide)
  exact ⟨h.1, h.2.2.2⟩

/-- C5: a force-refreshed analysis at time `t` writes its payload into the
cache; a later `get` (without `force_refresh`) whose age `now - t` is under
24 hours returns the cached payload without invoking the fetch-and-analyze
pipeline and leaves the cache unchanged; once the cached entry's age
reaches or exceeds 86400 seconds the same `get` invokes the pipeline, and
a successful recomputation overwrites the entry. -/
theorem c5_cache_freshness (fetch : String → Option ProfileData)
    (now t : ℤ) (cache : String → Option Analysis) (u : String)
    (c : Analysis) :
    (cache u = some c → now - c.analyzed_at < 86400 →
      analyze_profile_async fetch now cache u false = (.ok c, cache, false)) ∧
    (cache u = some c → 86400 ≤ now - c.analyzed_at →
      (analyze_profile_async fetch now cache u false).2.2 = true ∧
      ∀ a, analyze_username fetch now u = .ok a →
        (analyze_profile_async fetch now cache u false).2.1 u = some a) ∧
    (∀ a, analyze_username fetch t u = .ok a → now - t < 86400 →
      analyze_profile_async fetch now
          ((analyze_profile_async fetch t cache u true).2.1) u false =
        (.ok a, (analyze_profile_async fetch t cache u true).2.1, false)) := by
  refine ⟨?_, ?_, ?_⟩
  · intro h1 h2
    have hf : cacheFresh now cache u = some c := by simp [cacheFresh, h1, h2]
    simp [analyze_profile_async, hf]
  · intro h1 h2
    have hf : cacheFresh now cache u = none := by
      simp [cacheFresh, h1, not_lt.mpr h2]
    constructor
    · rcases hres : analyze_username fetch now u with a | _ | msg <;>
        simp [analyze_profile_async, hf, hres]
    · intro a ha
      simp [analyze_profile_async, hf, ha]
  · intro a ha hlt
    have hput : (analyze_profile_async fetch t cache u true).2.1 =
        fun v => if v = u then some a else cache v := by
      cases hcf : cacheFresh t cache u <;>
        simp [analyze_profile_async, hcf, ha]
    have hat : a.analyzed_at = t := (analyze_username_ok_inv ha).1
    generalize hC : (analyze_profile_async fetch t cache u true).2.1 = C
    rw [hC] at hput
    have hf2 : cacheFresh now C u = some a := by
      rw [hput]
      simp [cacheFresh, hat, hlt]
    simp [analyze_profile_async, hf2]

/-- Witness for C5: a put at time 0 followed by a get at time 1000 hits
the cache (the pipeline flag is `false`) and leaves the cache unchanged. -/
theorem c5_witness :
    (analyze_profile_async wfetch 1000
        ((analyze_profile_async wfetch 0 emptyCache "x" true).2.1)
        "x" false).2.2 = false ∧
    (analyze_profile_async wfetch 1000
        ((analyze_profile_async wfetch 0 emptyCache "x" true).2.1)
        "x" false).2.1 =
      (analyze_profile_async wfetch 0 emptyCache "x" true).2.1 := by
  obtain ⟨a, ha⟩ : ∃ a, analyze_username wfetch 0 "x" = .ok a := ⟨_, rfl⟩
  have h := (c5_cache_freshness wfetch 1000 0 emptyCache "x" a).2.2 a ha
    (by norm_num)
  rw [h]
  exact ⟨rfl, rfl⟩

/-- C6: a batch of three identifiers in which the middle fetch fails
(connection error or not-found both surface as a failed fetch) and the
other two analyses succeed reports `successful = 2`, `failed = 1`,
surfaces the failed identifier's error in the `errors` list, returns the
two successes sorted by opportunity score descending, and analyzes all
three identifiers (`total_analyzed = 3`) — one failure does not abort the
siblings. -/
theorem c6_batch_failure_isolated (fetch : String → Option ProfileData)
    (now : ℤ) (u1 u2 u3 : String) (a1 a3 : Analysis)
    (h1 : analyze_username fetch now u1 = .ok a1)
    (h2 : fetch u2 = none)
    (h3 : analyze_username fetch now u3 = .ok a3) :
    (batch_analyze_profiles fetch now emptyCache [u1, u2, u3] 0).successful
      = 2 ∧
    (batch_analyze_profiles fetch now emptyCache [u1, u2, u3] 0).failed = 1 ∧
    (batch_analyze_profiles fetch now emptyCache [u1, u2, u3] 0).errors =
      [(u2, "Could not fetch profile @" ++ u2)] ∧
    (batch_analyze_profiles fetch now emptyCache
      [u1, u2, u3] 0).results.Sorted byScoreDesc ∧
    (batch_analyze_profiles fetch now emptyCache
      [u1, u2, u3] 0).results.Perm [a1, a3] ∧
    (batch_analyze_profiles fetch now emptyCache [u1, u2, u3] 0).total_analyzed
      = 3 := by
  have e1 : (analyze_profile_async fetch now emptyCache u1 false).1 = .ok a1 := by
    simp [analyze_profile_async, cacheFresh, emptyCache, h1]
  have e2 : (analyze_profile_async fetch now emptyCache u2 false).1 =
      .fetchFailed ("Could not fetch profile @" ++ u2) := by
    simp [analyze_profile_async, cacheFresh, emptyCache, analyze_username, h2]
  have e3 : (analyze_profile_async fetch now emptyCache u3 false).1 = .ok a3 := by
    simp [analyze_profile_async, cacheFresh, emptyCache, h3]
  have hp1 : (0 : ℚ) ≤ a1.opportunity_score :=
    le_trans (by norm_num) (analyze_username_ok_inv h1).2.1
  have hp3 : (0 : ℚ) ≤ a3.opportunity_score :=
    le_trans (by norm_num) (analyze_username_ok_inv h3).2.1
  have hres : (batch_analyze_profiles fetch now emptyCache [u1, u2, u3] 0).results
      = List.insertionSort byScoreDesc [a1, a3] := by
    simp [batch_analyze_profiles, e1, e2, e3, resultEntry, errorEntry, hp1, hp3]
  have herr : (batch_analyze_profiles fetch now emptyCache [u1, u2, u3] 0).errors
      = [(u2, "Could not fetch profile @" ++ u2)] := by
    simp [batch_analyze_profiles, e1, e2, e3, resultEntry, errorEntry]
  have hsucc : (batch_analyze_profiles fetch now emptyCache [u1, u2, u3] 0).successful
      = (batch_analyze_profiles fetch now emptyCache [u1, u2, u3] 0).results.length := rfl
  have hfail : (batch_analyze_profiles fetch now emptyCache [u1, u2, u3] 0).failed
      = (batch_analyze_profiles fetch now emptyCache [u1, u2, u3] 0).errors.length := rfl
  refine ⟨?_, ?_, herr, ?_, ?_, rfl⟩
  · rw [hsucc, hres, List.length_insertionSort]
    rfl
  · rw [hfail, herr]
    rfl
  · rw [hres]
    exact List.sorted_insertionSort byScoreDesc _
  · rw [hres]
    exact List.perm_insertionSort byScoreDesc _

/-- Witness for C6 on a concrete batch in which `"y"` fails to fetch. -/
theorem c6_witness :
    (batch_analyze_profiles wfetch 100 emptyCache ["x", "y", "z"] 0).successful
      = 2 ∧
    (batch_analyze_profiles wfetch 100 emptyCache ["x", "y", "z"] 0).failed
      = 1 ∧
    (batch_analyze_profiles wfetch 100 emptyCache ["x", "y", "z"] 0).errors =
      [("y", "Could not fetch profile @y")] := by
  obtain ⟨a1, ha1⟩ : ∃ a, analyze_username wfetch 100 "x" = .ok a := ⟨_, rfl⟩
  obtain ⟨a3, ha3⟩ : ∃ a, analyze_username wfetch 100 "z" = .ok a := ⟨_, rfl⟩
  have h := c6_batch_failure_isolated wfetch 100 "x" "y" "z" a1 a3 ha1 rfl ha3
  exact ⟨h.1, h.2.1, h.2.2.1⟩

end BusinessIntel
